import Mathlib

/-!
Verification of the flash-anzan-kids game core (src/App.tsx) against its
specification.  The React component's state cells become fields of a
`Session` structure; its event handlers become pure functions on `Session`;
the FLASHING `useEffect`'s timer protocol becomes a step function on a
dedicated `FlashState`.  Randomness (`Math.random()`) is injected as an
explicit source argument.
-/

namespace FlashAnzan

/-- `enum GameState` from App.tsx. -/
inductive GameState where
  | START
  | READY
  | FLASHING
  | ANSWERING
  | RESULT
deriving DecidableEq, Repr

/-- `interface GameConfig` from App.tsx. -/
structure GameConfig where
  name : String
  count : Nat
  interval : Nat
  maxValue : Nat
  color : String
  icon : String
  message : String
deriving DecidableEq, Repr

/-- `DIFFICULTY_LEVELS` from App.tsx, verbatim. -/
def DIFFICULTY_LEVELS : List GameConfig :=
  [ { name := "たまご級", count := 2, interval := 1200, maxValue := 5,
      color := "bg-yellow-400", icon := "🥚", message := "まずは 2つから！" },
    { name := "ひよこ級", count := 3, interval := 1000, maxValue := 9,
      color := "bg-green-400", icon := "🐤", message := "3つに ちょうせん！" },
    { name := "うさぎ級", count := 5, interval := 800, maxValue := 9,
      color := "bg-pink-400", icon := "🐰", message := "どんどん いくよ！" },
    { name := "くま級", count := 7, interval := 600, maxValue := 9,
      color := "bg-orange-400", icon := "🐻", message := "キミなら できる！" },
    { name := "らいおん級", count := 10, interval := 400, maxValue := 15,
      color := "bg-red-500", icon := "🦁", message := "あんざんマスター！" } ]

/-- `PRAISE_MESSAGES` from App.tsx. -/
def PRAISE_MESSAGES : List String :=
  ["すごすぎる！", "てんさい！", "かんぺき！", "そのちょうし！", "きらきら！", "かっこいい！"]

/-- The consolation message from the incorrect branch of `checkAnswer`. -/
def CONSOLATION : String := "おしかったね！"

/-- The React state cells of the `App` component (audio and rendering are out
of scope).  `numbers`/`currentIndex`/`userAnswer`/`score`/`correctAnswer`/
`streak`/`praise` are the `useState` cells of the same names. -/
structure Session where
  gameState : GameState
  config : GameConfig
  numbers : List Nat
  currentIndex : Int
  userAnswer : String
  score : Nat
  correctAnswer : Nat
  streak : Nat
  praise : String
deriving DecidableEq, Repr

/-- Initial values of the `useState` cells: START, `DIFFICULTY_LEVELS[0]`,
`[]`, `-1`, `''`, `0`, `0`, `0`, `""`. -/
def initialSession : Session :=
  { gameState := .START
    config := DIFFICULTY_LEVELS.get ⟨0, by decide⟩
    numbers := []
    currentIndex := -1
    userAnswer := ""
    score := 0
    correctAnswer := 0
    streak := 0
    praise := "" }

/-- The numbers drawn in `startGame`:
`Array.from({length: count}, () => Math.floor(Math.random() * maxValue) + 1)`.
`rand i` stands for the i-th evaluation of `Math.floor(Math.random() * maxValue)`;
since `0 ≤ Math.random() < 1`, every real draw satisfies `rand i < maxValue`
whenever `maxValue ≥ 1`, which theorems take as a hypothesis on the source. -/
def generateNumbers (count : Nat) (rand : Nat → Nat) : List Nat :=
  (List.range count).map fun i => rand i + 1

/-- `startGame` from App.tsx (the `sounds.start()` feedback signal is out of
scope): draw the numbers, store their sum (`reduce((a, b) => a + b, 0)`),
enter READY and clear the pending answer. -/
def startGame (rand : Nat → Nat) (s : Session) : Session :=
  let newNumbers := generateNumbers s.config.count rand
  { s with
    numbers := newNumbers
    correctAnswer := newNumbers.foldl (· + ·) 0
    gameState := .READY
    userAnswer := "" }

/-- `handleNumClick` from App.tsx: `'C'` clears the answer, a digit is
appended only while the answer is shorter than 3 characters. -/
def handleNumClick (val : String) (s : Session) : Session :=
  if val = "C" then { s with userAnswer := "" }
  else if s.userAnswer.length < 3 then { s with userAnswer := s.userAnswer ++ val }
  else s

/-- Decimal digit value of a character (`c.toNat - 48`). -/
def digitVal (c : Char) : Nat := c.toNat - 48

/-- `parseInt(userAnswer)` as used by `checkAnswer`: `userAnswer` is built
only from the digit buttons, so it is either empty (`parseInt('')` is `NaN`,
modelled as `none`, which compares unequal to every number) or a string of
decimal digits with the usual decimal value. -/
def parseIntResult (s : String) : Option Nat :=
  if s.data = [] then none
  else if s.data.all Char.isDigit then
    some (s.data.foldl (fun a c => a * 10 + digitVal c) 0)
  else none

/-- `checkAnswer` from App.tsx (feedback signals out of scope).
`praiseIdx` models `Math.floor(Math.random() * PRAISE_MESSAGES.length)`. -/
def checkAnswer (praiseIdx : Fin PRAISE_MESSAGES.length) (s : Session) : Session :=
  if parseIntResult s.userAnswer = some s.correctAnswer then
    { s with
      score := s.score + (s.config.count * 10) + (s.streak * 5)
      streak := s.streak + 1
      praise := PRAISE_MESSAGES.get praiseIdx
      gameState := .RESULT }
  else
    { s with
      streak := 0
      praise := CONSOLATION
      gameState := .RESULT }

/-- The OK! button of the ANSWERING screen: `disabled={!userAnswer}` and
`onClick = checkAnswer`.  A disabled button ignores clicks, so the submit
trigger runs `checkAnswer` only when `userAnswer` is non-empty. -/
def submitTrigger (praiseIdx : Fin PRAISE_MESSAGES.length) (s : Session) : Session :=
  if s.userAnswer = "" then s else checkAnswer praiseIdx s

/-- The おわる (go home) button of the RESULT screen:
`onClick={() => { sounds.click(); setGameState(GameState.START); }}` —
it sets only the phase. -/
def goHome (s : Session) : Session :=
  { s with gameState := .START }

/-- A concrete ANSWERING session used to exercise the correct branch of
`checkAnswer`: ひよこ級 (count 3), numbers 3+4+5 = 12, input "12", streak 2. -/
def answeringSessionC2 : Session :=
  { gameState := .ANSWERING
    config := DIFFICULTY_LEVELS.get ⟨1, by decide⟩
    numbers := [3, 4, 5]
    currentIndex := -1
    userAnswer := "12"
    score := 100
    correctAnswer := 12
    streak := 2
    praise := "" }

/-- A concrete ANSWERING session used to exercise the incorrect branch of
`checkAnswer`: たまご級, numbers 3+4 = 7, input "6". -/
def answeringSessionC4 : Session :=
  { gameState := .ANSWERING
    config := DIFFICULTY_LEVELS.get ⟨0, by decide⟩
    numbers := [3, 4]
    currentIndex := -1
    userAnswer := "6"
    score := 20
    correctAnswer := 7
    streak := 1
    praise := "" }

/-- A concrete RESULT session (after an incorrect answer on round `[3, 4]`)
from which the go-home button is pressed. -/
def resultSessionC8 : Session :=
  { gameState := .RESULT
    config := DIFFICULTY_LEVELS.get ⟨0, by decide⟩
    numbers := [3, 4]
    currentIndex := -1
    userAnswer := "6"
    score := 20
    correctAnswer := 7
    streak := 0
    praise := CONSOLATION }

/-- A session whose selected preset is invalid (`count = 0 < 1`), used to
probe the absence of configuration validation in `startGame`. -/
def invalidConfigSession : Session :=
  { initialSession with
    config := { name := "bad", count := 0, interval := 1000, maxValue := 5,
                color := "", icon := "", message := "" } }

/-- The timing state of the FLASHING `useEffect` (App.tsx lines 105-125):
`idx` is the closure-local counter, `currentIndex` the displayed index state
cell, `timerActive` whether the `setInterval` registered in `flashTimerRef`
is still running, `timeoutPending` whether the final `setTimeout` has been
scheduled but has not fired yet. -/
structure FlashState where
  idx : Nat
  currentIndex : Int
  timerActive : Bool
  timeoutPending : Bool
  gameState : GameState
deriving DecidableEq, Repr

/-- Entering FLASHING: `let idx = 0; setCurrentIndex(0);` and the interval
timer is started. -/
def initFlash : FlashState :=
  { idx := 0, currentIndex := 0, timerActive := true, timeoutPending := false,
    gameState := .FLASHING }

/-- One `intervalMs` period elapsing, for a round of `n` numbers.  While the
interval is active this is its tick: `idx++`; if `idx < numbers.length` then
`setCurrentIndex(idx)` else `clearInterval` and schedule the final
`setTimeout(..., config.interval)`.  One period after that cancellation the
timeout fires: `setGameState(ANSWERING); setCurrentIndex(-1)`. -/
def flashStep (n : Nat) (s : FlashState) : FlashState :=
  if s.timerActive then
    let idx := s.idx + 1
    if idx < n then { s with idx := idx, currentIndex := (idx : Int) }
    else { s with idx := idx, timerActive := false, timeoutPending := true }
  else if s.timeoutPending then
    { s with gameState := .ANSWERING, currentIndex := -1, timeoutPending := false }
  else s

/-- The FLASHING timing state `k` intervals after the phase was entered. -/
def flashAfter (n k : Nat) : FlashState :=
  (flashStep n)^[k] initFlash

/-- The FLASHING effect's cleanup (App.tsx line 123):
`if (flashTimerRef.current) clearInterval(flashTimerRef.current)`.
It cancels the repeating interval; the final `setTimeout` handle is not
stored anywhere and is not cancelled. -/
def effectCleanup (s : FlashState) : FlashState :=
  { s with timerActive := false }

/-- The labels of the keypad buttons rendered in the ANSWERING screen
(App.tsx line 220). -/
def NUM_BUTTONS : List String :=
  ["1", "2", "3", "4", "5", "6", "7", "8", "9", "C", "0"]

/-- The UI and timer events that can reach the `App` component's handlers:
the difficulty buttons and あそぶ button of the START screen, the GO!! button
of READY, the interval tick and final timeout of FLASHING, the keypad and OK!
buttons of ANSWERING, and the もう一回 / おわる buttons of RESULT.
Randomness is carried by the trigger. -/
inductive Trigger where
  | selectPreset (i : Fin DIFFICULTY_LEVELS.length)
  | startButton (rand : Nat → Nat)
  | goButton
  | intervalTick
  | flashTimeout
  | numButton (i : Fin NUM_BUTTONS.length)
  | okButton (praiseIdx : Fin PRAISE_MESSAGES.length)
  | retryButton (rand : Nat → Nat)
  | homeButton

/-- Dispatch of one trigger against the session, guarded by the phase in
which App.tsx renders each control (an event for a phase whose screen is not
mounted cannot fire and is a no-op). -/
def step (t : Trigger) (s : Session) : Session :=
  match t with
  | .selectPreset i =>
      if s.gameState = .START then { s with config := DIFFICULTY_LEVELS.get i } else s
  | .startButton rand =>
      if s.gameState = .START then startGame rand s else s
  | .goButton =>
      if s.gameState = .READY then { s with gameState := .FLASHING, currentIndex := 0 } else s
  | .intervalTick =>
      if s.gameState = .FLASHING ∧ s.currentIndex + 1 < (s.numbers.length : Int) then
        { s with currentIndex := s.currentIndex + 1 }
      else s
  | .flashTimeout =>
      if s.gameState = .FLASHING then
        { s with gameState := .ANSWERING, currentIndex := -1 }
      else s
  | .numButton i =>
      if s.gameState = .ANSWERING then handleNumClick (NUM_BUTTONS.get i) s else s
  | .okButton praiseIdx =>
      if s.gameState = .ANSWERING then submitTrigger praiseIdx s else s
  | .retryButton rand =>
      if s.gameState = .RESULT then startGame rand s else s
  | .homeButton =>
      if s.gameState = .RESULT then goHome s else s

/-- The session reached from the initial mount by a list of triggers. -/
def runTriggers (ts : List Trigger) : Session :=
  ts.foldl (fun s t => step t s) initialSession

/-- The spec's invariant on `pendingInput`: a string of at most 3 decimal
digits. -/
def answerWF (s : Session) : Prop :=
  s.userAnswer.length ≤ 3 ∧ s.userAnswer.data.all Char.isDigit = true

instance (s : Session) : Decidable (answerWF s) := by
  unfold answerWF
  infer_instance

/-- The keypad character for a decimal digit `d` (`'0'` has code 48). -/
def digitChar (d : Nat) : Char := Char.ofNat (48 + d)

/-- The canonical keypad entry (most significant digit first, no leading
zeros) of a number below 1000 — the button presses a player uses to type a
round's sum. -/
def entryDigits (n : Nat) : List Char :=
  if n < 10 then [digitChar n]
  else if n < 100 then [digitChar (n / 10), digitChar (n % 10)]
  else [digitChar (n / 100), digitChar (n / 10 % 10), digitChar (n % 10)]

/-- Pressing a list of keypad characters in order. -/
def enterDigits (l : List Char) (s : Session) : Session :=
  l.foldl (fun s c => handleNumClick (String.mk [c]) s) s

theorem foldl_add_eq_sum (l : List Nat) (a : Nat) : l.foldl (· + ·) a = a + l.sum := by
  induction l generalizing a with
  | nil => simp
  | cons x xs ih => simp [List.foldl_cons, ih, List.sum_cons]; omega

/-- C3: for every preset with `count ≥ 1` and `maxValue ≥ 1` and every
randomness source (modelled by the draws `rand` with `rand i < maxValue`),
`startGame` produces exactly `count` values, each in `[1, maxValue]`, and
stores a sum equal to the exact integer sum of the values. -/
theorem startGame_round_wellformed (s : Session) (rand : Nat → Nat)
    (hcount : 1 ≤ s.config.count) (hmax : 1 ≤ s.config.maxValue)
    (hrand : ∀ i, rand i < s.config.maxValue) :
    (startGame rand s).numbers.length = s.config.count ∧
    (∀ v ∈ (startGame rand s).numbers, 1 ≤ v ∧ v ≤ s.config.maxValue) ∧
    (startGame rand s).correctAnswer = (startGame rand s).numbers.sum := by
  refine ⟨by simp [startGame, generateNumbers], ?_, ?_⟩
  · intro v hv
    simp only [startGame, generateNumbers, List.mem_map, List.mem_range] at hv
    obtain ⟨i, _, rfl⟩ := hv
    exact ⟨Nat.le_add_left 1 (rand i), hrand i⟩
  · simp [startGame, foldl_add_eq_sum]

theorem startGame_round_wellformed_witness :
    1 ≤ initialSession.config.count ∧ 1 ≤ initialSession.config.maxValue ∧
    ((startGame (fun _ => 0) initialSession).numbers.length = initialSession.config.count ∧
    (∀ v ∈ (startGame (fun _ => 0) initialSession).numbers,
      1 ≤ v ∧ v ≤ initialSession.config.maxValue) ∧
    (startGame (fun _ => 0) initialSession).correctAnswer =
      (startGame (fun _ => 0) initialSession).numbers.sum) :=
  ⟨by decide, by decide,
    startGame_round_wellformed initialSession (fun _ => 0) (by decide) (by decide)
      (fun i => show (0 : Nat) < initialSession.config.maxValue by decide)⟩

/-- C2: on a submit whose parsed input equals the stored sum, `checkAnswer`
adds exactly `count * 10 + streak * 5` to the score using the streak value
before the increment, increments the streak, and picks the praise from the
fixed non-empty praise set; with `count = 3` and `streak = 2` the score
increases by 40. -/
theorem checkAnswer_correct_branch (s : Session) (praiseIdx : Fin PRAISE_MESSAGES.length)
    (h : parseIntResult s.userAnswer = some s.correctAnswer) :
    (checkAnswer praiseIdx s).score = s.score + (s.config.count * 10) + (s.streak * 5) ∧
    (checkAnswer praiseIdx s).streak = s.streak + 1 ∧
    (checkAnswer praiseIdx s).praise ∈ PRAISE_MESSAGES ∧
    PRAISE_MESSAGES ≠ [] ∧
    (s.config.count = 3 → s.streak = 2 → (checkAnswer praiseIdx s).score = s.score + 40) := by
  refine ⟨by simp [checkAnswer, h], by simp [checkAnswer, h], ?_, by decide, ?_⟩
  · have hp : (checkAnswer praiseIdx s).praise = PRAISE_MESSAGES.get praiseIdx := by
      simp [checkAnswer, h]
    rw [hp]
    exact List.get_mem _ praiseIdx.1 praiseIdx.2
  · intro h3 h2
    simp [checkAnswer, h, h3, h2]

theorem checkAnswer_correct_branch_witness :
    parseIntResult answeringSessionC2.userAnswer = some answeringSessionC2.correctAnswer ∧
    ((checkAnswer ⟨0, by decide⟩ answeringSessionC2).score =
        answeringSessionC2.score + (answeringSessionC2.config.count * 10) +
          (answeringSessionC2.streak * 5) ∧
      (checkAnswer ⟨0, by decide⟩ answeringSessionC2).streak = answeringSessionC2.streak + 1 ∧
      (checkAnswer ⟨0, by decide⟩ answeringSessionC2).praise ∈ PRAISE_MESSAGES ∧
      PRAISE_MESSAGES ≠ [] ∧
      (answeringSessionC2.config.count = 3 → answeringSessionC2.streak = 2 →
        (checkAnswer ⟨0, by decide⟩ answeringSessionC2).score = answeringSessionC2.score + 40)) :=
  ⟨by decide, checkAnswer_correct_branch answeringSessionC2 ⟨0, by decide⟩ (by decide)⟩

/-- C4: on a submit whose parsed input does not equal the stored sum,
`checkAnswer` resets the streak to 0, leaves the score unchanged, and sets
the praise to the fixed consolation message, which is not in the random
praise set. -/
theorem checkAnswer_incorrect_branch (s : Session) (praiseIdx : Fin PRAISE_MESSAGES.length)
    (h : parseIntResult s.userAnswer ≠ some s.correctAnswer) :
    (checkAnswer praiseIdx s).streak = 0 ∧
    (checkAnswer praiseIdx s).score = s.score ∧
    (checkAnswer praiseIdx s).praise = CONSOLATION ∧
    CONSOLATION ∉ PRAISE_MESSAGES := by
  exact ⟨by simp [checkAnswer, h], by simp [checkAnswer, h], by simp [checkAnswer, h],
    by decide⟩

theorem checkAnswer_incorrect_branch_witness :
    parseIntResult answeringSessionC4.userAnswer ≠ some answeringSessionC4.correctAnswer ∧
    ((checkAnswer ⟨0, by decide⟩ answeringSessionC4).streak = 0 ∧
      (checkAnswer ⟨0, by decide⟩ answeringSessionC4).score = answeringSessionC4.score ∧
      (checkAnswer ⟨0, by decide⟩ answeringSessionC4).praise = CONSOLATION ∧
      CONSOLATION ∉ PRAISE_MESSAGES) :=
  ⟨by decide, checkAnswer_incorrect_branch answeringSessionC4 ⟨0, by decide⟩ (by decide)⟩

/-- C7: a submit trigger with an empty pending input is a no-op: the whole
session state is unchanged and the empty answer is never evaluated. -/
theorem submitTrigger_empty_noop (s : Session) (praiseIdx : Fin PRAISE_MESSAGES.length)
    (h : s.userAnswer = "") :
    submitTrigger praiseIdx s = s := by
  simp [submitTrigger, h]

theorem submitTrigger_empty_noop_witness :
    submitTrigger ⟨0, by decide⟩ initialSession = initialSession :=
  submitTrigger_empty_noop initialSession ⟨0, by decide⟩ rfl

/-- C8 counterexample: the go-home button does NOT clear the active round or
the pending input.  From a concrete RESULT session with numbers `[3, 4]` and
input `"6"`, `goHome` reaches START with the round and the input still
present — so the active round is not absent in START. -/
theorem goHome_does_not_clear_counterexample :
    (goHome resultSessionC8).gameState = GameState.START ∧
    (goHome resultSessionC8).numbers = [3, 4] ∧
    (goHome resultSessionC8).numbers ≠ [] ∧
    (goHome resultSessionC8).userAnswer = "6" ∧
    (goHome resultSessionC8).userAnswer ≠ "" := by
  decide

/-- C8 amended: the go-home trigger transitions to START and leaves every
other field unchanged — in particular the active round (`numbers`,
`correctAnswer`) and `pendingInput` (`userAnswer`) are NOT cleared, while
score and streak persist unchanged.  (`userAnswer` and the round are only
replaced by the next `startGame`.) -/
theorem goHome_only_sets_phase (s : Session) :
    (goHome s).gameState = GameState.START ∧
    (goHome s).numbers = s.numbers ∧
    (goHome s).correctAnswer = s.correctAnswer ∧
    (goHome s).userAnswer = s.userAnswer ∧
    (goHome s).score = s.score ∧
    (goHome s).streak = s.streak ∧
    (goHome s).config = s.config := by
  exact ⟨rfl, rfl, rfl, rfl, rfl, rfl, rfl⟩

/-- C6 counterexample: the code performs no configuration validation.  With a
preset whose `count = 0` (count < 1), `startGame` does not fail: it produces
an empty values list with sum 0 and still advances the session to READY,
i.e. it proceeds toward FLASHING rather than rejecting. -/
theorem startGame_no_validation_counterexample :
    (startGame (fun _ => 0) invalidConfigSession).gameState = GameState.READY ∧
    (startGame (fun _ => 0) invalidConfigSession).numbers = [] ∧
    (startGame (fun _ => 0) invalidConfigSession).correctAnswer = 0 := by
  decide

/-- C6 amended: `startGame` performs no validation and cannot fail: for any
preset with `count = 0` it produces an empty values list with sum 0 and still
advances to READY.  No `InvalidConfiguration` error exists in the code;
every preset in the shipped catalog does satisfy `count ≥ 1` and
`maxValue ≥ 1`, so invalid configurations are unreachable through the UI. -/
theorem startGame_no_validation (s : Session) (rand : Nat → Nat)
    (h : s.config.count = 0) :
    (startGame rand s).gameState = GameState.READY ∧
    (startGame rand s).numbers = [] ∧
    (startGame rand s).correctAnswer = 0 ∧
    (∀ c ∈ DIFFICULTY_LEVELS, 1 ≤ c.count ∧ 1 ≤ c.maxValue) := by
  refine ⟨rfl, ?_, ?_, by decide⟩
  · simp [startGame, generateNumbers, h]
  · simp [startGame, generateNumbers, h]

theorem startGame_no_validation_witness :
    invalidConfigSession.config.count = 0 ∧
    ((startGame (fun _ => 1) invalidConfigSession).gameState = GameState.READY ∧
      (startGame (fun _ => 1) invalidConfigSession).numbers = [] ∧
      (startGame (fun _ => 1) invalidConfigSession).correctAnswer = 0 ∧
      (∀ c ∈ DIFFICULTY_LEVELS, 1 ≤ c.count ∧ 1 ≤ c.maxValue)) :=
  ⟨by decide, startGame_no_validation invalidConfigSession (fun _ => 1) (by decide)⟩

theorem flashAfter_lt (n k : Nat) (hk : k < n) :
    flashAfter n k =
      { idx := k, currentIndex := (k : Int), timerActive := true,
        timeoutPending := false, gameState := .FLASHING } := by
  induction k with
  | zero => rfl
  | succ k ih =>
    have hk' : k < n := Nat.lt_of_succ_lt hk
    rw [flashAfter, Function.iterate_succ_apply', ← flashAfter, ih hk']
    simp [flashStep, hk]

theorem flashAfter_at_count (n : Nat) (hn : 1 ≤ n) :
    flashAfter n n =
      { idx := n, currentIndex := ((n - 1 : Nat) : Int), timerActive := false,
        timeoutPending := true, gameState := .FLASHING } := by
  obtain ⟨m, rfl⟩ : ∃ m, n = m + 1 := ⟨n - 1, by omega⟩
  rw [flashAfter, Function.iterate_succ_apply', ← flashAfter, flashAfter_lt _ m (by omega)]
  simp [flashStep]

theorem flashAfter_past_count (n : Nat) (hn : 1 ≤ n) :
    flashAfter n (n + 1) =
      { idx := n, currentIndex := -1, timerActive := false,
        timeoutPending := false, gameState := .ANSWERING } := by
  rw [flashAfter, Function.iterate_succ_apply', ← flashAfter, flashAfter_at_count n hn]
  simp [flashStep]

/-- C1: in a FLASHING phase over `n ≥ 1` numbers, the displayed index `k`
intervals after entry is exactly `k` for every `k < n` (indices appear in
strictly increasing order, none skipped or duplicated, one advance per
`intervalMs` tick); on the tick after the last index the repeating interval
timer is cancelled while the last index stays displayed; and exactly one
further `intervalMs` later the phase becomes ANSWERING with the index reset
to `-1`. -/
theorem flash_sequence (n k : Nat) (hn : 1 ≤ n) (hk : k < n) :
    (flashAfter n k).currentIndex = (k : Int) ∧
    (flashAfter n k).gameState = GameState.FLASHING ∧
    (flashAfter n k).timerActive = true ∧
    (flashAfter n n).timerActive = false ∧
    (flashAfter n n).timeoutPending = true ∧
    (flashAfter n n).currentIndex = ((n - 1 : Nat) : Int) ∧
    (flashAfter n n).gameState = GameState.FLASHING ∧
    (flashAfter n (n + 1)).gameState = GameState.ANSWERING ∧
    (flashAfter n (n + 1)).currentIndex = -1 ∧
    (flashAfter n (n + 1)).timeoutPending = false := by
  rw [flashAfter_lt n k hk, flashAfter_at_count n hn, flashAfter_past_count n hn]
  exact ⟨rfl, rfl, rfl, rfl, rfl, rfl, rfl, rfl, rfl, rfl⟩

theorem flash_sequence_witness :
    1 ≤ 3 ∧ 1 < 3 ∧
    ((flashAfter 3 1).currentIndex = (1 : Int) ∧
      (flashAfter 3 1).gameState = GameState.FLASHING ∧
      (flashAfter 3 1).timerActive = true ∧
      (flashAfter 3 3).timerActive = false ∧
      (flashAfter 3 3).timeoutPending = true ∧
      (flashAfter 3 3).currentIndex = ((3 - 1 : Nat) : Int) ∧
      (flashAfter 3 3).gameState = GameState.FLASHING ∧
      (flashAfter 3 (3 + 1)).gameState = GameState.ANSWERING ∧
      (flashAfter 3 (3 + 1)).currentIndex = -1 ∧
      (flashAfter 3 (3 + 1)).timeoutPending = false) :=
  ⟨by decide, by decide, flash_sequence 3 1 (by decide) (by decide)⟩

/-- C5 counterexample: the final one-interval `setTimeout` is NOT cancelled
when the FLASHING effect is torn down.  After a 2-number round has finished
flashing (`flashAfter 2 2`: interval cancelled, timeout pending), running the
effect cleanup — as happens when a new round is started — leaves the timeout
pending, and when it fires it still mutates the phase to ANSWERING and the
displayed index to `-1`, contradicting the claim that every pending FLASHING
timer is cancelled before a new round proceeds. -/
theorem stale_timeout_counterexample :
    (effectCleanup (flashAfter 2 2)).timeoutPending = true ∧
    (flashStep 2 (effectCleanup (flashAfter 2 2))).gameState = GameState.ANSWERING ∧
    (flashStep 2 (effectCleanup (flashAfter 2 2))).currentIndex = -1 := by
  decide

/-- C5 amended: the effect cleanup run when a new round supersedes a pending
FLASHING phase cancels the repeating interval timer (so no stale interval
tick ever advances the flash index), and when no final timeout is pending no
stale callback mutates anything; but the final one-interval `setTimeout`
before ANSWERING is not tracked and not cancelled, and if it is pending it
still fires against the new session. -/
theorem effectCleanup_cancels_interval (n : Nat) (s : FlashState)
    (h : s.timeoutPending = false) :
    (effectCleanup s).timerActive = false ∧
    flashStep n (effectCleanup s) = effectCleanup s := by
  refine ⟨rfl, ?_⟩
  simp [flashStep, effectCleanup, h]

theorem effectCleanup_cancels_interval_witness :
    initFlash.timeoutPending = false ∧
    ((effectCleanup initFlash).timerActive = false ∧
      flashStep 2 (effectCleanup initFlash) = effectCleanup initFlash) :=
  ⟨rfl, effectCleanup_cancels_interval 2 initFlash rfl⟩

theorem numButtons_cases (val : String) (hval : val ∈ NUM_BUTTONS) :
    val = "C" ∨ (val ≠ "C" ∧ val.length = 1 ∧ val.data.all Char.isDigit = true) := by
  fin_cases hval <;> decide

theorem handleNumClick_preserves_answerWF (val : String) (hval : val ∈ NUM_BUTTONS)
    (s : Session) (h : answerWF s) : answerWF (handleNumClick val s) := by
  rcases numButtons_cases val hval with rfl | ⟨hne, h1, h2⟩
  · simp [handleNumClick, answerWF]
  · simp only [handleNumClick, if_neg hne]
    by_cases hlen : s.userAnswer.length < 3
    · rw [if_pos hlen]
      constructor
      · show (s.userAnswer ++ val).length ≤ 3
        rw [String.length_append]
        omega
      · show ((s.userAnswer ++ val).data.all Char.isDigit) = true
        rw [String.data_append, List.all_append]
        simp [h.2, h2]
    · rw [if_neg hlen]
      exact h

theorem checkAnswer_userAnswer (praiseIdx : Fin PRAISE_MESSAGES.length) (s : Session) :
    (checkAnswer praiseIdx s).userAnswer = s.userAnswer := by
  unfold checkAnswer
  split <;> rfl

theorem startGame_answerWF (rand : Nat → Nat) (s : Session) : answerWF (startGame rand s) := by
  simp [startGame, answerWF]

theorem step_preserves_answerWF (t : Trigger) (s : Session) (h : answerWF s) :
    answerWF (step t s) := by
  have hpres : ∀ s' : Session, s'.userAnswer = s.userAnswer → answerWF s' := by
    intro s' hs'
    exact ⟨by rw [hs']; exact h.1, by rw [hs']; exact h.2⟩
  cases t with
  | selectPreset i =>
    simp only [step]
    split
    · exact hpres _ rfl
    · exact h
  | startButton rand =>
    simp only [step]
    split
    · exact startGame_answerWF rand s
    · exact h
  | goButton =>
    simp only [step]
    split
    · exact hpres _ rfl
    · exact h
  | intervalTick =>
    simp only [step]
    split
    · exact hpres _ rfl
    · exact h
  | flashTimeout =>
    simp only [step]
    split
    · exact hpres _ rfl
    · exact h
  | numButton i =>
    simp only [step]
    split
    · exact handleNumClick_preserves_answerWF _ (List.get_mem _ i.1 i.2) s h
    · exact h
  | okButton praiseIdx =>
    simp only [step]
    split
    · simp only [submitTrigger]
      split
      · exact h
      · exact hpres _ (checkAnswer_userAnswer praiseIdx s)
    · exact h
  | retryButton rand =>
    simp only [step]
    split
    · exact startGame_answerWF rand s
    · exact h
  | homeButton =>
    simp only [step]
    split
    · exact hpres _ rfl
    · exact h

theorem runTriggers_answerWF (ts : List Trigger) : answerWF (runTriggers ts) := by
  suffices hgen : ∀ s, answerWF s → answerWF (ts.foldl (fun s t => step t s) s) by
    exact hgen initialSession (by decide)
  induction ts with
  | nil => intro s h; exact h
  | cons t ts ih =>
    intro s h
    exact ih (step t s) (step_preserves_answerWF t s h)

/-- C9: in every state reachable from the initial mount through any trigger
sequence, `pendingInput` (`userAnswer`) is a string of at most 3 decimal
digits; a digit press appends exactly when the current length is strictly
below 3 and is a no-op otherwise, and the C button always empties the
input. -/
theorem pendingInput_invariant (ts : List Trigger) (s : Session) (val : String)
    (hval : val ∈ NUM_BUTTONS) (hne : val ≠ "C") :
    ((runTriggers ts).userAnswer.length ≤ 3 ∧
      (runTriggers ts).userAnswer.data.all Char.isDigit = true) ∧
    (s.userAnswer.length < 3 →
      (handleNumClick val s).userAnswer = s.userAnswer ++ val) ∧
    (¬ s.userAnswer.length < 3 → handleNumClick val s = s) ∧
    (handleNumClick "C" s).userAnswer = "" := by
  refine ⟨runTriggers_answerWF ts, ?_, ?_, by simp [handleNumClick]⟩
  · intro hlen
    simp [handleNumClick, hne, hlen]
  · intro hlen
    simp [handleNumClick, hne, hlen]

theorem pendingInput_invariant_witness :
    "5" ∈ NUM_BUTTONS ∧ "5" ≠ "C" ∧
    (((runTriggers []).userAnswer.length ≤ 3 ∧
        (runTriggers []).userAnswer.data.all Char.isDigit = true) ∧
      (answeringSessionC4.userAnswer.length < 3 →
        (handleNumClick "5" answeringSessionC4).userAnswer =
          answeringSessionC4.userAnswer ++ "5") ∧
      (¬ answeringSessionC4.userAnswer.length < 3 →
        handleNumClick "5" answeringSessionC4 = answeringSessionC4) ∧
      (handleNumClick "C" answeringSessionC4).userAnswer = "") :=
  ⟨by decide, by decide,
    pendingInput_invariant [] answeringSessionC4 "5" (by decide) (by decide)⟩

theorem digitChar_facts : ∀ d < 10, (digitChar d).isDigit = true ∧
    digitVal (digitChar d) = d ∧ String.mk [digitChar d] ≠ "C" := by
  decide

theorem entryDigits_length (n : Nat) : (entryDigits n).length ≤ 3 := by
  unfold entryDigits
  split_ifs <;> simp

theorem entryDigits_ne_nil (n : Nat) : entryDigits n ≠ [] := by
  unfold entryDigits
  split_ifs <;> simp

theorem entryDigits_not_C (n : Nat) (hn : n ≤ 999) :
    ∀ c ∈ entryDigits n, String.mk [c] ≠ "C" := by
  unfold entryDigits
  split_ifs with h1 h2 <;> intro c hc <;> simp only [List.mem_cons,
    List.mem_singleton, List.not_mem_nil, or_false] at hc
  · subst hc
    exact (digitChar_facts n (by omega)).2.2
  · rcases hc with rfl | rfl
    · exact (digitChar_facts (n / 10) (by omega)).2.2
    · exact (digitChar_facts (n % 10) (by omega)).2.2
  · rcases hc with rfl | rfl | rfl
    · exact (digitChar_facts (n / 100) (by omega)).2.2
    · exact (digitChar_facts (n / 10 % 10) (by omega)).2.2
    · exact (digitChar_facts (n % 10) (by omega)).2.2

theorem parse_entryDigits (n : Nat) (hn : n ≤ 999) :
    parseIntResult (String.mk (entryDigits n)) = some n := by
  by_cases h1 : n < 10
  · obtain ⟨hdig, hval, -⟩ := digitChar_facts n (by omega)
    rw [entryDigits, if_pos h1]
    simp [parseIntResult, hdig, hval]
  · by_cases h2 : n < 100
    · obtain ⟨hdig1, hval1, -⟩ := digitChar_facts (n / 10) (by omega)
      obtain ⟨hdig2, hval2, -⟩ := digitChar_facts (n % 10) (by omega)
      rw [entryDigits, if_neg h1, if_pos h2]
      simp [parseIntResult, hdig1, hdig2, hval1, hval2]
      omega
    · obtain ⟨hdig1, hval1, -⟩ := digitChar_facts (n / 100) (by omega)
      obtain ⟨hdig2, hval2, -⟩ := digitChar_facts (n / 10 % 10) (by omega)
      obtain ⟨hdig3, hval3, -⟩ := digitChar_facts (n % 10) (by omega)
      rw [entryDigits, if_neg h1, if_neg h2]
      simp [parseIntResult, hdig1, hdig2, hdig3, hval1, hval2, hval3]
      omega

theorem handleNumClick_rest (val : String) (s : Session) :
    (handleNumClick val s).gameState = s.gameState ∧
    (handleNumClick val s).config = s.config ∧
    (handleNumClick val s).numbers = s.numbers ∧
    (handleNumClick val s).correctAnswer = s.correctAnswer ∧
    (handleNumClick val s).score = s.score ∧
    (handleNumClick val s).streak = s.streak := by
  unfold handleNumClick
  split_ifs <;> exact ⟨rfl, rfl, rfl, rfl, rfl, rfl⟩

theorem enterDigits_rest (l : List Char) (s : Session) :
    (enterDigits l s).config = s.config ∧
    (enterDigits l s).correctAnswer = s.correctAnswer ∧
    (enterDigits l s).streak = s.streak := by
  induction l generalizing s with
  | nil => exact ⟨rfl, rfl, rfl⟩
  | cons c l ih =>
    have hstep : enterDigits (c :: l) s = enterDigits l (handleNumClick (String.mk [c]) s) :=
      rfl
    rw [hstep]
    obtain ⟨-, hcf, -, hca, -, hst⟩ := handleNumClick_rest (String.mk [c]) s
    obtain ⟨icf, ica, ist⟩ := ih (handleNumClick (String.mk [c]) s)
    exact ⟨icf.trans hcf, ica.trans hca, ist.trans hst⟩

theorem enterDigits_userAnswer_data (l : List Char) (s : Session)
    (hC : ∀ c ∈ l, String.mk [c] ≠ "C") (hlen : s.userAnswer.length + l.length ≤ 3) :
    (enterDigits l s).userAnswer.data = s.userAnswer.data ++ l := by
  induction l generalizing s with
  | nil => simp [enterDigits]
  | cons c l ih =>
    have hstep : enterDigits (c :: l) s = enterDigits l (handleNumClick (String.mk [c]) s) :=
      rfl
    have hcC : String.mk [c] ≠ "C" := hC c (List.mem_cons_self c l)
    have hlt : s.userAnswer.length < 3 := by
      simp only [List.length_cons] at hlen
      omega
    have hclick : handleNumClick (String.mk [c]) s =
        { s with userAnswer := s.userAnswer ++ String.mk [c] } := by
      rw [handleNumClick, if_neg hcC, if_pos hlt]
    rw [hstep, hclick]
    rw [ih _ (fun c' hc' => hC c' (List.mem_cons_of_mem c hc')) ?hl]
    · rw [String.data_append]
      simp
    case hl =>
      rw [String.length_append]
      simp only [List.length_cons] at hlen
      have : (String.mk [c]).length = 1 := rfl
      omega

theorem startGame_sum_le (s : Session) (rand : Nat → Nat)
    (hrand : ∀ i, rand i < s.config.maxValue) :
    (startGame rand s).correctAnswer ≤ s.config.count * s.config.maxValue := by
  have hmem : ∀ v ∈ generateNumbers s.config.count rand, v ≤ s.config.maxValue := by
    intro v hv
    simp only [generateNumbers, List.mem_map, List.mem_range] at hv
    obtain ⟨i, -, rfl⟩ := hv
    exact hrand i
  have hsum := List.sum_le_card_nsmul (generateNumbers s.config.count rand)
    s.config.maxValue hmem
  have hlen : (generateNumbers s.config.count rand).length = s.config.count := by
    simp [generateNumbers]
  rw [hlen, smul_eq_mul] at hsum
  calc (startGame rand s).correctAnswer
      = (generateNumbers s.config.count rand).sum := by
        simp [startGame, foldl_add_eq_sum]
    _ ≤ s.config.count * s.config.maxValue := hsum

/-- C10: every preset in the shipped catalog has `count * maxValue ≤ 999`
(the largest product, for らいおん級, is `10 * 15 = 150`), so every round
generated from a catalog preset has a sum of at most 999 — i.e. at most 3
decimal digits; its canonical keypad entry fits under the 3-character
`pendingInput` cap, parses back to the sum, and pressing OK! submits it and
takes the correct branch. -/
theorem catalog_sum_enterable (c : GameConfig) (hc : c ∈ DIFFICULTY_LEVELS)
    (s : Session) (hcfg : s.config = c) (rand : Nat → Nat)
    (hrand : ∀ i, rand i < c.maxValue) (praiseIdx : Fin PRAISE_MESSAGES.length) :
    c.count * c.maxValue ≤ 999 ∧
    c.count * c.maxValue ≤ 150 ∧
    (∃ cmax ∈ DIFFICULTY_LEVELS, cmax.count = 10 ∧ cmax.maxValue = 15 ∧
      cmax.count * cmax.maxValue = 150) ∧
    (startGame rand s).correctAnswer ≤ 999 ∧
    (entryDigits (startGame rand s).correctAnswer).length ≤ 3 ∧
    (enterDigits (entryDigits (startGame rand s).correctAnswer)
        (startGame rand s)).userAnswer ≠ "" ∧
    parseIntResult (enterDigits (entryDigits (startGame rand s).correctAnswer)
        (startGame rand s)).userAnswer = some (startGame rand s).correctAnswer ∧
    (submitTrigger praiseIdx (enterDigits (entryDigits (startGame rand s).correctAnswer)
        (startGame rand s))).gameState = GameState.RESULT ∧
    (submitTrigger praiseIdx (enterDigits (entryDigits (startGame rand s).correctAnswer)
        (startGame rand s))).streak = s.streak + 1 := by
  have hcat999 : ∀ c' ∈ DIFFICULTY_LEVELS, c'.count * c'.maxValue ≤ 999 := by decide
  have hcat150 : ∀ c' ∈ DIFFICULTY_LEVELS, c'.count * c'.maxValue ≤ 150 := by decide
  have hsum : (startGame rand s).correctAnswer ≤ 999 := by
    have := startGame_sum_le s rand (by rw [hcfg]; exact hrand)
    rw [hcfg] at this
    exact le_trans this (hcat999 c hc)
  have hgAns : (startGame rand s).userAnswer = "" := rfl
  have hl3 : (startGame rand s).userAnswer.length +
      (entryDigits (startGame rand s).correctAnswer).length ≤ 3 := by
    rw [hgAns]
    simpa using entryDigits_length (startGame rand s).correctAnswer
  have hdata : (enterDigits (entryDigits (startGame rand s).correctAnswer)
      (startGame rand s)).userAnswer.data = entryDigits (startGame rand s).correctAnswer := by
    rw [enterDigits_userAnswer_data _ _ (entryDigits_not_C _ hsum) hl3, hgAns]
    simp
  have huser : (enterDigits (entryDigits (startGame rand s).correctAnswer)
      (startGame rand s)).userAnswer = String.mk (entryDigits (startGame rand s).correctAnswer) := by
    apply String.ext
    rw [hdata]
  have hparse : parseIntResult (enterDigits (entryDigits (startGame rand s).correctAnswer)
      (startGame rand s)).userAnswer = some (startGame rand s).correctAnswer := by
    rw [huser]
    exact parse_entryDigits _ hsum
  have hne : (enterDigits (entryDigits (startGame rand s).correctAnswer)
      (startGame rand s)).userAnswer ≠ "" := by
    rw [huser]
    intro hcontra
    exact entryDigits_ne_nil (startGame rand s).correctAnswer (congrArg String.data hcontra)
  obtain ⟨-, hca, hst⟩ := enterDigits_rest (entryDigits (startGame rand s).correctAnswer)
    (startGame rand s)
  have hcorrect : parseIntResult (enterDigits (entryDigits (startGame rand s).correctAnswer)
      (startGame rand s)).userAnswer = some (enterDigits (entryDigits
        (startGame rand s).correctAnswer) (startGame rand s)).correctAnswer := by
    rw [hparse, hca]
  have hsubmit : submitTrigger praiseIdx (enterDigits (entryDigits
      (startGame rand s).correctAnswer) (startGame rand s)) =
      checkAnswer praiseIdx (enterDigits (entryDigits
        (startGame rand s).correctAnswer) (startGame rand s)) := by
    rw [submitTrigger, if_neg hne]
  refine ⟨hcat999 c hc, hcat150 c hc, ?_, hsum, entryDigits_length _, hne, hparse, ?_, ?_⟩
  · exact ⟨DIFFICULTY_LEVELS.get ⟨4, by decide⟩, by decide, by decide, by decide, by decide⟩
  · rw [hsubmit, checkAnswer, if_pos hcorrect]
  · rw [hsubmit, checkAnswer, if_pos hcorrect]
    show (enterDigits (entryDigits (startGame rand s).correctAnswer)
      (startGame rand s)).streak + 1 = s.streak + 1
    rw [hst]
    rfl

theorem catalog_sum_enterable_witness :
    initialSession.config ∈ DIFFICULTY_LEVELS ∧
    (∀ i : Nat, (fun _ => 0 : Nat → Nat) i < initialSession.config.maxValue) ∧
    (initialSession.config.count * initialSession.config.maxValue ≤ 999 ∧
      initialSession.config.count * initialSession.config.maxValue ≤ 150 ∧
      (∃ cmax ∈ DIFFICULTY_LEVELS, cmax.count = 10 ∧ cmax.maxValue = 15 ∧
        cmax.count * cmax.maxValue = 150) ∧
      (startGame (fun _ => 0) initialSession).correctAnswer ≤ 999 ∧
      (entryDigits (startGame (fun _ => 0) initialSession).correctAnswer).length ≤ 3 ∧
      (enterDigits (entryDigits (startGame (fun _ => 0) initialSession).correctAnswer)
          (startGame (fun _ => 0) initialSession)).userAnswer ≠ "" ∧
      parseIntResult (enterDigits
          (entryDigits (startGame (fun _ => 0) initialSession).correctAnswer)
          (startGame (fun _ => 0) initialSession)).userAnswer =
        some (startGame (fun _ => 0) initialSession).correctAnswer ∧
      (submitTrigger ⟨0, by decide⟩ (enterDigits (entryDigits
          (startGame (fun _ => 0) initialSession).correctAnswer)
          (startGame (fun _ => 0) initialSession))).gameState = GameState.RESULT ∧
      (submitTrigger ⟨0, by decide⟩ (enterDigits (entryDigits
          (startGame (fun _ => 0) initialSession).correctAnswer)
          (startGame (fun _ => 0) initialSession))).streak = initialSession.streak + 1) :=
  ⟨by decide,
    fun i => show (0 : Nat) < initialSession.config.maxValue by decide,
    catalog_sum_enterable initialSession.config (by decide) initialSession rfl (fun _ => 0)
      (fun i => show (0 : Nat) < initialSession.config.maxValue by decide) ⟨0, by decide⟩⟩

end FlashAnzan
